import Mathlib

/-!
Shallow embedding of the C11 threads compatibility wrapper
(src/threads_macos_compat.c and src/threads_macos_compat.h).

Machine integers (time_t, long, int) are embedded as Int. External POSIX
primitives (pthread calls, timespec_get, malloc, nanosleep) are embedded as
explicit outcome parameters: each modelled function takes the outcome the
primitive would report and computes exactly what the source does with it.
-/

-- Result codes from src/threads_macos_compat.h lines 57-60.

def thrd_success : Int := 0

def thrd_error : Int := 1

def thrd_nomem : Int := 2

def thrd_timedout : Int := 3

-- Mutex type flags from src/threads_macos_compat.h lines 62-63.

def mtx_plain : Int := 1

def mtx_recursive : Int := 2

-- Check-interval constants from src/threads_macos_compat.c lines 57-63.
-- The default of THREADS_COMPAT_TIMED_LOCK_CHECK_INTERVAL_NANOS is 1000.

def THREADS_COMPAT_TIMED_LOCK_CHECK_INTERVAL_NANOS : Int := 1000

def THREADS_COMPAT_NANOS_PER_SECOND : Int := 1000000000

def THREADS_COMPAT_TIMED_LOCK_CHECK_INTERVAL_FULL_SECONDS : Int :=
  THREADS_COMPAT_TIMED_LOCK_CHECK_INTERVAL_NANOS / THREADS_COMPAT_NANOS_PER_SECOND

def THREADS_COMPAT_TIMED_LOCK_CHECK_INTERVAL_NANOSECOND_PART : Int :=
  THREADS_COMPAT_TIMED_LOCK_CHECK_INTERVAL_NANOS % THREADS_COMPAT_NANOS_PER_SECOND

/-- struct timespec: seconds and nanoseconds, both signed integers. -/
structure Timespec where
  tv_sec : Int
  tv_nsec : Int
deriving DecidableEq, Repr

/-- The check interval as a timespec, as built in the initializer of
sleep_time at src/threads_macos_compat.c lines 150-153. -/
def check_interval : Timespec :=
  { tv_sec := THREADS_COMPAT_TIMED_LOCK_CHECK_INTERVAL_FULL_SECONDS,
    tv_nsec := THREADS_COMPAT_TIMED_LOCK_CHECK_INTERVAL_NANOSECOND_PART }

/-- timespec_is_greater_than from src/threads_macos_compat.c lines 132-142:
strict lexicographic comparison of (tv_sec, tv_nsec). -/
def timespec_is_greater_than (a b : Timespec) : Bool :=
  if a.tv_sec > b.tv_sec then true
  else if a.tv_sec < b.tv_sec then false
  else decide (a.tv_nsec > b.tv_nsec)

/-- The shared normalization-and-check pattern of mtx_timedlock
(src/threads_macos_compat.c lines 159-170 and 204-215): after a component-wise
subtraction produced (s, n), apply at most one borrow when n is negative, then
fail (none) when the nanoseconds or the seconds component is still negative. -/
def normalize_after_borrow (s n : Int) : Option Timespec :=
  let s1 := if n < 0 then s - 1 else s
  let n1 := if n < 0 then n + THREADS_COMPAT_NANOS_PER_SECOND else n
  if n1 < 0 then none
  else if s1 < 0 then none
  else some { tv_sec := s1, tv_nsec := n1 }

/-- Proposition: after the single conditional borrow, the seconds or the
nanoseconds component of the subtraction result (s, n) is still negative.
This is the condition the source treats as a fatal internal error. -/
def post_borrow_negative (s n : Int) : Prop :=
  (if n < 0 then n + THREADS_COMPAT_NANOS_PER_SECOND else n) < 0 ∨
  (if n < 0 then s - 1 else s) < 0

instance (s n : Int) : Decidable (post_borrow_negative s n) := by
  unfold post_borrow_negative; infer_instance

/-- Result of the pre-loop setup of mtx_timedlock. -/
inductive SetupResult where
  | setupError
  | proceed (latest_full_sleep_start : Timespec)
deriving DecidableEq, Repr

/-- Pre-loop computation of latest_full_sleep_start in mtx_timedlock,
src/threads_macos_compat.c lines 155-170, embedded faithfully: line 157 of the
source computes the tv_nsec component from time_point->tv_sec (not tv_nsec),
and that is reproduced here. setupError corresponds to returning thrd_error
before the polling loop is entered. -/
def mtx_timedlock_setup (time_point : Timespec) : SetupResult :=
  match normalize_after_borrow
      (time_point.tv_sec - THREADS_COMPAT_TIMED_LOCK_CHECK_INTERVAL_FULL_SECONDS)
      (time_point.tv_sec - THREADS_COMPAT_TIMED_LOCK_CHECK_INTERVAL_NANOSECOND_PART) with
  | none => SetupResult.setupError
  | some t => SetupResult.proceed t

/-- Sleep-interval computation of one polling iteration of mtx_timedlock,
src/threads_macos_compat.c lines 193-216: when now is not greater than
latest_full_sleep_start the full check interval is used, otherwise the
component-wise difference time_point minus now is normalized with one borrow;
none corresponds to returning thrd_error from the loop. -/
def mtx_timedlock_sleep_time (time_point latest_full_sleep_start now : Timespec) :
    Option Timespec :=
  if !(timespec_is_greater_than now latest_full_sleep_start) then
    some check_interval
  else
    normalize_after_borrow (time_point.tv_sec - now.tv_sec)
      (time_point.tv_nsec - now.tv_nsec)

/-- Outcome reported by pthread_mutex_trylock inside the polling loop:
0 (ok), EBUSY (busy), or any other error code. -/
inductive TrylockResult where
  | ok
  | busy
  | errOther (code : Int)
deriving DecidableEq, Repr

/-- Observable outcome of one iteration of the polling loop of mtx_timedlock:
return thrd_success, return thrd_error, return thrd_timedout, yield and retry,
or sleep for the computed interval and retry. -/
inductive IterOutcome where
  | acquired
  | iterError
  | timedout
  | yields
  | sleeps (t : Timespec)
deriving DecidableEq, Repr

/-- One iteration of the polling loop of mtx_timedlock,
src/threads_macos_compat.c lines 172-228. Parameters model the outcomes of
the external calls in source order: pthread_mutex_trylock, timespec_get
(clock_ok), the clock value read (now), and nanosleep (nanosleep_ok). -/
def mtx_timedlock_iter (time_point latest_full_sleep_start : Timespec)
    (trylock_res : TrylockResult) (clock_ok : Bool) (now : Timespec)
    (nanosleep_ok : Bool) : IterOutcome :=
  match trylock_res with
  | TrylockResult.ok => IterOutcome.acquired
  | TrylockResult.errOther _ => IterOutcome.iterError
  | TrylockResult.busy =>
    if !clock_ok then IterOutcome.iterError
    else if timespec_is_greater_than now time_point then IterOutcome.timedout
    else
      match mtx_timedlock_sleep_time time_point latest_full_sleep_start now with
      | none => IterOutcome.iterError
      | some t =>
        if t.tv_sec = 0 ∧ t.tv_nsec = 0 then IterOutcome.yields
        else if nanosleep_ok then IterOutcome.sleeps t else IterOutcome.iterError

/-- zmalloc from src/threads_macos_compat.c lines 252-263: a zero-size request
yields no allocation; otherwise the allocation succeeds exactly when the
underlying malloc succeeds (modelled by the malloc_ok parameter). The returned
memory is zeroed. -/
def zmalloc_ok (size : Nat) (malloc_ok : Bool) : Bool :=
  if size = 0 then false else malloc_ok

/-- Size of wrapped_thread_t (two pointers and an int, padded): positive on
every real platform; the exact value is irrelevant, only positivity is used. -/
def sizeof_wrapped_thread_t : Nat := 24

/-- wrapped_thread_t from src/threads_macos_compat.c lines 240-244: the
heap-allocated result-transport box holding the entry point, its argument and
the integer result slot. -/
structure WrappedThread (α : Type) where
  actual_func : α → Int
  actual_arg : α
  res : Int

/-- The box as thrd_create builds it (src/threads_macos_compat.c lines
266-273): zmalloc zeroes the record, then actual_func and actual_arg are
assigned; the res slot stays zero. -/
def make_wrapped {α : Type} (f : α → Int) (a : α) : WrappedThread α :=
  { actual_func := f, actual_arg := a, res := 0 }

/-- wrap_thread_func from src/threads_macos_compat.c lines 246-250: runs the
actual entry point on the actual argument, stores the result into the box and
returns the box pointer as the pthread result value. -/
def wrap_thread_func {α : Type} (w : WrappedThread α) : WrappedThread α :=
  { w with res := w.actual_func w.actual_arg }

/-- Observable outcome of thrd_create: the returned code, whether
pthread_create was invoked, and how many times the box was freed by
thrd_create itself. -/
structure CreateOutcome where
  ret : Int
  called_pthread_create : Bool
  box_free_count : Nat
deriving DecidableEq, Repr

/-- thrd_create from src/threads_macos_compat.c lines 265-282. Parameters
model the outcomes of the external calls: malloc_ok is whether malloc
succeeds inside zmalloc, pthread_create_err is the code pthread_create
reports (0 on success). -/
def thrd_create (malloc_ok : Bool) (pthread_create_err : Int) : CreateOutcome :=
  if !(zmalloc_ok sizeof_wrapped_thread_t malloc_ok) then
    { ret := thrd_error, called_pthread_create := false, box_free_count := 0 }
  else if pthread_create_err ≠ 0 then
    { ret := thrd_error, called_pthread_create := true, box_free_count := 1 }
  else
    { ret := thrd_success, called_pthread_create := true, box_free_count := 0 }

/-- Observable outcome of thrd_join: the returned code, the value stored
through the res output pointer (none when nothing is stored), how many times
the delivered box was freed, and whether the null-result anomaly was logged. -/
structure JoinOutcome where
  ret : Int
  res_written : Option Int
  box_free_count : Nat
  logged_null_result : Bool
deriving DecidableEq, Repr

/-- thrd_join from src/threads_macos_compat.c lines 288-311. Parameters model
the external pthread_join call: its error code (0 on success) and the value it
delivers through the retval pointer (none models a NULL record, some w the
transported box). res_requested is whether the caller passed a non-null res
output pointer. -/
def thrd_join {α : Type} (pthread_join_err : Int)
    (delivered : Option (WrappedThread α)) (res_requested : Bool) : JoinOutcome :=
  if pthread_join_err ≠ 0 then
    { ret := thrd_error, res_written := none, box_free_count := 0,
      logged_null_result := false }
  else
    match delivered with
    | none =>
      { ret := thrd_success,
        res_written := if res_requested then some 0 else none,
        box_free_count := 0, logged_null_result := true }
    | some w =>
      { ret := thrd_success,
        res_written := if res_requested then some w.res else none,
        box_free_count := 1, logged_null_result := false }

/-- Observable outcome of mtx_init: the returned code, whether
pthread_mutexattr_init was called, and how many times
pthread_mutexattr_destroy was called. -/
structure MtxInitOutcome where
  ret : Int
  attr_init_called : Bool
  attr_destroy_count : Nat
deriving DecidableEq, Repr

/-- mtx_init from src/threads_macos_compat.c lines 65-101. Parameters model
the outcomes of the external pthread calls in source order:
pthread_mutexattr_init, pthread_mutexattr_settype, pthread_mutex_init and
pthread_mutexattr_destroy (each 0 on success). The settype call happens only
when the recursive bit is set in typ; every failure after the attribute
object was initialized still reaches the destroy at the end label. -/
def mtx_init (typ attr_init_err settype_err mutex_init_err attr_destroy_err :
    Int) : MtxInitOutcome :=
  if typ ≠ mtx_plain ∧ typ ≠ Int.lor mtx_plain mtx_recursive then
    { ret := thrd_error, attr_init_called := false, attr_destroy_count := 0 }
  else if attr_init_err ≠ 0 then
    { ret := thrd_error, attr_init_called := true, attr_destroy_count := 0 }
  else if Int.land typ mtx_recursive ≠ 0 then
    if settype_err ≠ 0 then
      { ret := thrd_error, attr_init_called := true, attr_destroy_count := 1 }
    else if mutex_init_err ≠ 0 then
      { ret := thrd_error, attr_init_called := true, attr_destroy_count := 1 }
    else
      { ret := thrd_success, attr_init_called := true, attr_destroy_count := 1 }
  else if mutex_init_err ≠ 0 then
    { ret := thrd_error, attr_init_called := true, attr_destroy_count := 1 }
  else
    { ret := thrd_success, attr_init_called := true, attr_destroy_count := 1 }

/-- Outcome of a call to the underlying sleep primitive: full completion,
interruption by a signal with a remaining un-slept duration, or a hard error
such as an invalid argument. -/
inductive NanosleepOutcome where
  | completed
  | interrupted (remaining : Timespec)
  | failed
deriving DecidableEq, Repr

/-- Return value and output-parameter effect of a sleep call. -/
structure SleepReturn where
  ret : Int
  remaining_out : Option Timespec
deriving DecidableEq, Repr

/-- Modelled from the spec: the partial-completion contract of the underlying
sleep primitive (POSIX nanosleep), which is not part of this repository. It
returns 0 when the requested time fully elapsed; when interrupted by a signal
it stores the remaining time through the output pointer and returns -1; on a
hard error it also returns -1 (the distinction from interruption is carried
only in errno, not in the return value). -/
def nanosleep_model (o : NanosleepOutcome) : SleepReturn :=
  match o with
  | NanosleepOutcome.completed => { ret := 0, remaining_out := none }
  | NanosleepOutcome.interrupted r => { ret := -1, remaining_out := some r }
  | NanosleepOutcome.failed => { ret := -1, remaining_out := none }

/-- thrd_sleep from src/threads_macos_compat.c lines 284-286: a direct
passthrough returning exactly what nanosleep returns, with the remaining
output pointer forwarded unchanged. -/
def thrd_sleep (o : NanosleepOutcome) : SleepReturn :=
  nanosleep_model o

-- A few sanity checks of the embedding on concrete values.

example : THREADS_COMPAT_TIMED_LOCK_CHECK_INTERVAL_FULL_SECONDS = 0 := by decide

example : THREADS_COMPAT_TIMED_LOCK_CHECK_INTERVAL_NANOSECOND_PART = 1000 := by decide

example : timespec_is_greater_than ⟨1, 0⟩ ⟨0, 999999999⟩ = true := by decide

example : timespec_is_greater_than ⟨5, 5⟩ ⟨5, 5⟩ = false := by decide

/-- The normalization helper fails exactly when a component is still negative
after the single borrow. -/
theorem normalize_after_borrow_none_iff (s n : Int) :
    normalize_after_borrow s n = none ↔ post_borrow_negative s n := by
  unfold normalize_after_borrow post_borrow_negative
  by_cases h1 : (if n < 0 then n + THREADS_COMPAT_NANOS_PER_SECOND else n) < 0 <;>
    by_cases h2 : (if n < 0 then s - 1 else s) < 0 <;>
      simp [h1, h2]

/-- C1 (code_bug): in a busy polling iteration whose remaining time until the
deadline (100 ns) is shorter than the check interval (1000 ns), mtx_timedlock
still computes the full check interval as the sleep time and sleeps past the
deadline, because line 157 of the source builds the tv_nsec component of
latest_full_sleep_start from time_point tv_sec instead of tv_nsec. With the
deadline (1725000000 s, 500 ns) the threshold becomes
(1725000000 s, 1724999000 ns), which no normalized clock reading with the same
seconds value can exceed, so the short-remaining branch is unreachable; the
last conjunct shows that with the intended threshold, deadline minus one check
interval, the same iteration computes exactly the remaining 100 ns. -/
theorem c1_short_remaining_still_full_interval :
    mtx_timedlock_setup ⟨1725000000, 500⟩ =
      SetupResult.proceed ⟨1725000000, 1724999000⟩ ∧
    timespec_is_greater_than ⟨1725000000, 400⟩ ⟨1725000000, 500⟩ = false ∧
    timespec_is_greater_than check_interval ⟨0, 100⟩ = true ∧
    mtx_timedlock_sleep_time ⟨1725000000, 500⟩ ⟨1725000000, 1724999000⟩
      ⟨1725000000, 400⟩ = some check_interval ∧
    check_interval = ⟨0, 1000⟩ ∧
    (⟨0, 1000⟩ : Timespec) ≠ ⟨0, 100⟩ ∧
    mtx_timedlock_iter ⟨1725000000, 500⟩ ⟨1725000000, 1724999000⟩
      TrylockResult.busy true ⟨1725000000, 400⟩ true =
      IterOutcome.sleeps check_interval ∧
    timespec_is_greater_than ⟨1725000000, 1400⟩ ⟨1725000000, 500⟩ = true ∧
    mtx_timedlock_sleep_time ⟨1725000000, 500⟩ ⟨1724999999, 999999500⟩
      ⟨1725000000, 400⟩ = some ⟨0, 100⟩ := by
  decide

/-- C2 counterexample: when the allocation of the result-transport box fails,
thrd_create returns thrd_error, not the ResourceExhausted code thrd_nomem the
claim names. -/
theorem c2_alloc_failure_not_nomem :
    (thrd_create false 0).ret ≠ thrd_nomem ∧
    (thrd_create false 0).ret = thrd_error := by
  decide

/-- C2 (amended): when the allocation of the result-transport box fails,
thrd_create returns the generic failure code thrd_error and does not call the
underlying thread-creation primitive. -/
theorem c2_alloc_failure_generic_error (e : Int) :
    (thrd_create false e).ret = thrd_error ∧
    (thrd_create false e).called_pthread_create = false :=
  ⟨rfl, rfl⟩

/-- C3 counterexample: in a busy iteration in which the clock reading equals
the deadline exactly (now = deadline = (10 s, 0 ns), so now is greater than or
equal to the deadline), the iteration does not return timedout: it computes a
zero sleep interval and yields. The latest_full_sleep_start value is the one
mtx_timedlock itself computes for this deadline. -/
theorem c3_equal_time_not_timedout :
    mtx_timedlock_setup ⟨10, 0⟩ = SetupResult.proceed ⟨9, 999999010⟩ ∧
    mtx_timedlock_iter ⟨10, 0⟩ ⟨9, 999999010⟩ TrylockResult.busy true ⟨10, 0⟩
      true = IterOutcome.yields ∧
    IterOutcome.yields ≠ IterOutcome.timedout := by
  decide

/-- C3 (amended): in every busy polling iteration with a successful clock
read, mtx_timedlock returns timedout exactly when the clock reading is
strictly greater than the deadline; in particular a reading at or before the
deadline never returns timedout in that iteration. -/
theorem c3_timedout_iff_strictly_later (time_point latest now : Timespec)
    (ok : Bool) :
    mtx_timedlock_iter time_point latest TrylockResult.busy true now ok =
        IterOutcome.timedout ↔
      timespec_is_greater_than now time_point = true := by
  cases h : timespec_is_greater_than now time_point
  · rcases hs : mtx_timedlock_sleep_time time_point latest now with _ | t
    · simp [mtx_timedlock_iter, h, hs]
    · simp [mtx_timedlock_iter, h, hs]
      split
      · simp
      · split <;> simp
  · simp [mtx_timedlock_iter, h]

/-- C4: spawning an entry point that returns V and joining the resulting
handle, with the underlying join succeeding and delivering the box the
wrapper returned, stores exactly V into the caller result output and returns
thrd_success. -/
theorem c4_spawn_join_round_trip {α : Type} (V : Int) (f : α → Int) (a : α)
    (h : f a = V) :
    (thrd_join 0 (some (wrap_thread_func (make_wrapped f a))) true).ret =
        thrd_success ∧
    (thrd_join 0 (some (wrap_thread_func (make_wrapped f a))) true).res_written
      = some V := by
  subst h
  exact ⟨rfl, rfl⟩

/-- Witness for C4 at the constant entry point returning 7. -/
theorem c4_spawn_join_round_trip_witness :
    (thrd_join 0 (some (wrap_thread_func (make_wrapped (fun _ : Unit => 7) ())))
        true).ret = thrd_success ∧
    (thrd_join 0 (some (wrap_thread_func (make_wrapped (fun _ : Unit => 7) ())))
        true).res_written = some 7 :=
  c4_spawn_join_round_trip 7 (fun _ : Unit => 7) () rfl

/-- C5: whenever the deadline/interval subtraction before the loop, or the
deadline/now subtraction inside the loop, leaves a negative seconds or
nanoseconds component after the single borrow normalization, mtx_timedlock
returns the internal-error code thrd_error (setupError before the loop,
iterError inside it), never timedout or success, and the negative value is
never coerced to a usable sleep interval. -/
theorem c5_negative_after_borrow_is_error :
    (∀ tp : Timespec,
        post_borrow_negative
          (tp.tv_sec - THREADS_COMPAT_TIMED_LOCK_CHECK_INTERVAL_FULL_SECONDS)
          (tp.tv_sec - THREADS_COMPAT_TIMED_LOCK_CHECK_INTERVAL_NANOSECOND_PART)
          → mtx_timedlock_setup tp = SetupResult.setupError) ∧
    (∀ (tp latest now : Timespec) (ok : Bool),
        timespec_is_greater_than now latest = true →
        timespec_is_greater_than now tp = false →
        post_borrow_negative (tp.tv_sec - now.tv_sec)
          (tp.tv_nsec - now.tv_nsec) →
        mtx_timedlock_sleep_time tp latest now = none ∧
        mtx_timedlock_iter tp latest TrylockResult.busy true now ok =
          IterOutcome.iterError) := by
  constructor
  · intro tp h
    unfold mtx_timedlock_setup
    rw [(normalize_after_borrow_none_iff _ _).mpr h]
  · intro tp latest now ok h1 h2 h3
    have hs : mtx_timedlock_sleep_time tp latest now = none := by
      unfold mtx_timedlock_sleep_time
      rw [h1]
      simpa using (normalize_after_borrow_none_iff _ _).mpr h3
    refine ⟨hs, ?_⟩
    simp [mtx_timedlock_iter, h2, hs]

/-- Witness for C5: a deadline of (-1 s, 0 ns) makes the pre-loop subtraction
negative, and a non-normalized clock reading of (9 s, 3000000000 ns) against
the deadline (10 s, 0 ns) makes the in-loop subtraction negative after one
borrow; both paths fail with the internal-error outcome. -/
theorem c5_negative_after_borrow_is_error_witness :
    mtx_timedlock_setup ⟨-1, 0⟩ = SetupResult.setupError ∧
    (mtx_timedlock_sleep_time ⟨10, 0⟩ ⟨0, 0⟩ ⟨9, 3000000000⟩ = none ∧
      mtx_timedlock_iter ⟨10, 0⟩ ⟨0, 0⟩ TrylockResult.busy true
        ⟨9, 3000000000⟩ true = IterOutcome.iterError) :=
  ⟨c5_negative_after_borrow_is_error.1 ⟨-1, 0⟩ (by decide),
   c5_negative_after_borrow_is_error.2 ⟨10, 0⟩ ⟨0, 0⟩ ⟨9, 3000000000⟩ true
     (by decide) (by decide) (by decide)⟩

/-- C6: when the box allocation succeeds but the underlying thread creation
fails, thrd_create frees the allocated box exactly once before returning its
failure code. -/
theorem c6_create_failure_frees_box (e : Int) (h : e ≠ 0) :
    (thrd_create true e).ret = thrd_error ∧
    (thrd_create true e).box_free_count = 1 := by
  unfold thrd_create
  simp [zmalloc_ok, sizeof_wrapped_thread_t, h]

/-- Witness for C6 at pthread_create error code 11. -/
theorem c6_create_failure_frees_box_witness :
    (thrd_create true 11).ret = thrd_error ∧
    (thrd_create true 11).box_free_count = 1 :=
  c6_create_failure_frees_box 11 (by decide)

/-- C7: for every supported type and every combination of outcomes of the
later pthread calls, once pthread_mutexattr_init has succeeded, mtx_init
calls pthread_mutexattr_destroy exactly once before returning: when the
settype call fails, when the mutex initialization fails, and on success. -/
theorem c7_attr_destroyed_exactly_once (typ ai se mi de : Int)
    (htyp : typ = mtx_plain ∨ typ = Int.lor mtx_plain mtx_recursive)
    (hai : ai = 0) :
    (mtx_init typ ai se mi de).attr_destroy_count = 1 := by
  subst hai
  rcases htyp with h | h <;> subst h <;> unfold mtx_init
  · rw [if_neg (show ¬(mtx_plain ≠ mtx_plain ∧
        mtx_plain ≠ Int.lor mtx_plain mtx_recursive) by decide)]
    rw [if_neg (show ¬((0 : Int) ≠ 0) by decide)]
    rw [if_neg (show ¬(Int.land mtx_plain mtx_recursive ≠ 0) by decide)]
    split <;> rfl
  · rw [if_neg (show ¬(Int.lor mtx_plain mtx_recursive ≠ mtx_plain ∧
        Int.lor mtx_plain mtx_recursive ≠ Int.lor mtx_plain mtx_recursive)
        by decide)]
    rw [if_neg (show ¬((0 : Int) ≠ 0) by decide)]
    rw [if_pos (show Int.land (Int.lor mtx_plain mtx_recursive) mtx_recursive
        ≠ 0 by decide)]
    split <;> first | rfl | (split <;> rfl)

/-- Witness for C7 at the recursive type with a failing settype call. -/
theorem c7_attr_destroyed_exactly_once_witness :
    (mtx_init 3 0 1 0 0).attr_destroy_count = 1 :=
  c7_attr_destroyed_exactly_once 3 0 1 0 0 (Or.inr (by decide)) rfl

/-- C8: when the underlying join succeeds but delivers a null record instead
of the transported box, thrd_join stores zero into the result output when one
was requested, returns thrd_success, and logs the anomaly. -/
theorem c8_null_record_defaults_zero (req : Bool) :
    (@thrd_join Unit 0 none req).ret = thrd_success ∧
    (@thrd_join Unit 0 none req).res_written =
      (if req then some 0 else none) ∧
    (@thrd_join Unit 0 none req).logged_null_result = true :=
  ⟨rfl, rfl, rfl⟩

/-- C9 counterexample: an interrupted sleep and a hard-failed sleep produce
the same thrd_sleep return value, -1, so the return code does not distinguish
the two cases. -/
theorem c9_interrupt_error_same_code :
    (thrd_sleep (NanosleepOutcome.interrupted ⟨1, 0⟩)).ret =
      (thrd_sleep NanosleepOutcome.failed).ret ∧
    (thrd_sleep (NanosleepOutcome.interrupted ⟨1, 0⟩)).ret = -1 := by
  decide

/-- C9 (amended): thrd_sleep forwards the nanosleep contract unchanged: on
interruption the remaining un-slept duration is reported through the output
parameter and -1 is returned; a hard error of the underlying primitive also
returns -1, so interruption and hard error are not distinguished by the
return value; only completion, returning 0, is distinguished. -/
theorem c9_passthrough_remaining (r : Timespec) :
    thrd_sleep (NanosleepOutcome.interrupted r) =
      { ret := -1, remaining_out := some r } ∧
    thrd_sleep NanosleepOutcome.failed = { ret := -1, remaining_out := none } ∧
    thrd_sleep NanosleepOutcome.completed = { ret := 0, remaining_out := none }
    :=
  ⟨rfl, rfl, rfl⟩

/-- C10: joining with a null result pointer while the underlying join succeeds
and delivers the transported box stores nothing through the pointer, frees
the box exactly once, and returns thrd_success. -/
theorem c10_join_null_res_pointer {α : Type} (w : WrappedThread α) :
    (thrd_join 0 (some w) false).ret = thrd_success ∧
    (thrd_join 0 (some w) false).res_written = none ∧
    (thrd_join 0 (some w) false).box_free_count = 1 :=
  ⟨rfl, rfl, rfl⟩
